import Mathlib

/-!
Verification of the whatsport-app backend scheduling logic: a shallow
embedding of the event and reservation handlers in
backend/app/api/events.py, backend/app/api/reservations.py and
backend/app/api/spaces.py, together with theorems about the conflict
test, the operating-hours validator, the reservation state machine,
join capacity gates, photo invariants and error swallowing.

Timestamps are modelled as integer seconds on the UTC timeline, which
is faithful to the naive Python datetimes the code compares: the
Python weekday() (Monday = 0) and time() accessors become pure
functions of the second count.
-/

namespace Whatsport

/-- Python datetime.weekday() on a timestamp in seconds since the Unix
epoch (1970-01-01 was a Thursday, weekday 3); Monday = 0, Sunday = 6. -/
def weekday (t : ℤ) : ℤ := (t.fdiv 86400 + 3) % 7

/-- Python datetime.time() as the number of seconds since local midnight. -/
def timeOfDay (t : ℤ) : ℤ := t % 86400

/-- A pair of timestamps, as stored in the start_time and end_time
fields of event and reservation documents. -/
structure TimeInterval where
  start_time : ℤ
  end_time : ℤ
deriving DecidableEq, Repr

/-- The three-branch Mongo disjunction used verbatim in
create_event (events.py lines 166-185), update_event (events.py lines
279-299) and create_reservation (reservations.py lines 74-94), with
ex the stored document and new the candidate interval. -/
def conflictBranches (ex new : TimeInterval) : Prop :=
  (ex.start_time ≤ new.start_time ∧ ex.end_time > new.start_time) ∨
  (ex.start_time < new.end_time ∧ ex.end_time ≥ new.end_time) ∨
  (ex.start_time ≥ new.start_time ∧ ex.end_time ≤ new.end_time)

instance (ex new : TimeInterval) : Decidable (conflictBranches ex new) := by
  unfold conflictBranches; infer_instance

/-- Modelled from the spec contract in section 4.1: overlaps a b is
true iff a.start < b.end and b.start < a.end. This is the refinement
target that the three-branch query conflictBranches is claimed to
collapse to. -/
def overlaps (a b : TimeInterval) : Prop :=
  a.start_time < b.end_time ∧ b.start_time < a.end_time

instance (a b : TimeInterval) : Decidable (overlaps a b) := by
  unfold overlaps; infer_instance

/-- Opening and closing wall-clock times for one weekday, as parsed
from the HH:MM strings of a space document, in seconds of day. -/
structure DayHours where
  opens_at : ℤ
  closes_at : ℤ
deriving DecidableEq, Repr

/-- One entry of a space document available_sports array. -/
structure SportEntry where
  sport_type : String
  price_per_hour : ℚ
deriving DecidableEq, Repr

/-- The fields of a space document consulted by create_reservation:
opening_hours keyed by weekday (the Mongo string keys 0..6 modelled as
the corresponding integers) and the available_sports array. -/
structure Space where
  manager_id : String
  opening_hours : List (ℤ × DayHours)
  available_sports : List SportEntry
deriving DecidableEq, Repr

/-- Dictionary lookup of a weekday key in the opening_hours mapping. -/
def lookupHours (s : Space) (d : ℤ) : Option DayHours :=
  (s.opening_hours.find? (fun kv => kv.1 == d)).map (fun kv => kv.2)

/-- The operating-hours validation block of create_reservation
(reservations.py lines 103-122): the weekday key is derived from the
start timestamp, the day must be present in opening_hours, and the
wall-clock times of start and end must lie within the opening window.
The interpolated hour strings of the original error message are
rendered from the stored second counts. -/
def hoursCheck (space : Space) (r : TimeInterval) : Except String Unit :=
  match lookupHours space (weekday r.start_time) with
  | none => .error "O espaço não está aberto neste dia da semana"
  | some h =>
    if timeOfDay r.start_time < h.opens_at ∨ timeOfDay r.end_time > h.closes_at then
      .error ("O espaço está aberto apenas das " ++ toString h.opens_at ++
        " às " ++ toString h.closes_at ++ " neste dia")
    else .ok ()

/-- Discriminator for a successful Except result. -/
def exOk {ε α : Type} : Except ε α → Bool
  | .ok _ => true
  | .error _ => false

/-- A space open only on Monday from 08:00 (second 28800) to 22:00
(second 79200), the configuration of the spec example for C1. -/
def mondaySpace : Space :=
  { manager_id := "m1"
    opening_hours := [(0, { opens_at := 28800, closes_at := 79200 })]
    available_sports := [] }

/-- C1: operating-hours validation in create_reservation. The weekday
key is taken from the start timestamp and the wall-clock bounds are
enforced (the 07:00-09:00 Monday request is rejected, the 08:00-09:00
one accepted), but a reservation from Monday 23:00 (timestamp 428400)
to Tuesday 01:00 (timestamp 435600) at a space open Monday
08:00-22:00 is ACCEPTED by the check: there is no cross-day rejection
at all, contradicting the requirement that bookings spanning a
weekday boundary fail with a distinct error. -/
theorem hoursCheck_accepts_cross_day_booking :
    hoursCheck mondaySpace { start_time := 428400, end_time := 435600 } = .ok () ∧
    weekday 428400 = 0 ∧
    weekday 435600 = 1 ∧
    hoursCheck mondaySpace { start_time := 370800, end_time := 378000 } ≠ .ok () ∧
    exOk (hoursCheck mondaySpace { start_time := 374400, end_time := 378000 }) = true ∧
    lookupHours mondaySpace 1 = none := by
  refine ⟨rfl, rfl, rfl, ?_, rfl, rfl⟩
  intro h
  simp [hoursCheck, lookupHours, mondaySpace, weekday, timeOfDay] at h

/-- C2: the three-branch conflict disjunction used by the handlers is,
on intervals of positive length, logically equivalent to the single
overlap formula of the spec, the overlap formula is symmetric, and
every valid interval overlaps itself. -/
theorem conflictBranches_equiv_overlaps (a b : TimeInterval)
    (ha : a.start_time < a.end_time) (hb : b.start_time < b.end_time) :
    (conflictBranches a b ↔ overlaps a b) ∧
    (overlaps a b ↔ overlaps b a) ∧
    overlaps a a := by
  unfold conflictBranches overlaps
  constructor
  · constructor
    · rintro (⟨h1, h2⟩ | ⟨h1, h2⟩ | ⟨h1, h2⟩) <;> exact ⟨by omega, by omega⟩
    · rintro ⟨h1, h2⟩
      omega
  · exact ⟨⟨fun h => ⟨h.2, h.1⟩, fun h => ⟨h.2, h.1⟩⟩, ha, ha⟩

/-- Witness for C2 at concrete valid intervals. -/
theorem conflictBranches_equiv_overlaps_witness :
    (conflictBranches { start_time := 0, end_time := 10 } { start_time := 5, end_time := 15 } ↔
      overlaps { start_time := 0, end_time := 10 } { start_time := 5, end_time := 15 }) ∧
    (overlaps { start_time := 0, end_time := 10 } { start_time := 5, end_time := 15 } ↔
      overlaps { start_time := 5, end_time := 15 } { start_time := 0, end_time := 10 }) ∧
    overlaps { start_time := 0, end_time := 10 } { start_time := 0, end_time := 10 } :=
  conflictBranches_equiv_overlaps
    { start_time := 0, end_time := 10 } { start_time := 5, end_time := 15 }
    (by decide) (by decide)

/-- The five reservation status strings of ReservationStatus in
backend/app/models/reservation.py. -/
inductive ReservationStatus where
  | pending
  | approved
  | rejected
  | canceled
  | completed
deriving DecidableEq, Repr

/-- The string value each status is stored as in the database, used by
the handlers when interpolating the current status into an error. -/
def statusStr : ReservationStatus → String
  | .pending => "pending"
  | .approved => "approved"
  | .rejected => "rejected"
  | .canceled => "canceled"
  | .completed => "completed"

/-- The fields of a reservation document read and written by the
status-transition handlers. -/
structure Reservation where
  status : ReservationStatus
  end_time : ℤ
  rejection_reason : Option String
deriving DecidableEq, Repr

/-- Status gate and transition of approve_reservation
(reservations.py lines 475-486), after the ownership checks. -/
def approve_reservation (r : Reservation) : Except String Reservation :=
  if r.status ≠ ReservationStatus.pending then
    .error ("Não é possível aprovar uma reserva com status " ++ statusStr r.status)
  else .ok { r with status := .approved }

/-- Status gate and transition of reject_reservation
(reservations.py lines 545-562), which stores the supplied reason. -/
def reject_reservation (reason : String) (r : Reservation) : Except String Reservation :=
  if r.status ≠ ReservationStatus.pending then
    .error ("Não é possível rejeitar uma reserva com status " ++ statusStr r.status)
  else .ok { r with status := .rejected, rejection_reason := some reason }

/-- Status gates and transition of cancel_reservation
(reservations.py lines 284-309): canceled, rejected and completed each
fail with their own message, everything else transitions to canceled. -/
def cancel_reservation (r : Reservation) : Except String Reservation :=
  if r.status = ReservationStatus.canceled then
    .error "Esta reserva já foi cancelada"
  else if r.status = ReservationStatus.rejected then
    .error "Esta reserva já foi rejeitada pelo gerente"
  else if r.status = ReservationStatus.completed then
    .error "Não é possível cancelar uma reserva já concluída"
  else .ok { r with status := .canceled }

/-- Status and time gates and transition of complete_reservation
(reservations.py lines 620-638). -/
def complete_reservation (now : ℤ) (r : Reservation) : Except String Reservation :=
  if r.status ≠ ReservationStatus.approved then
    .error ("Não é possível marcar como concluída uma reserva com status " ++ statusStr r.status)
  else if r.end_time > now then
    .error "Não é possível marcar como concluída uma reserva que ainda não terminou"
  else .ok { r with status := .completed }

/-- Effect of a handler on the stored document: the update_one call
only runs after all checks pass, so an error leaves the document as it
was. -/
def runTransition (op : Reservation → Except String Reservation) (r : Reservation) :
    Reservation :=
  match op r with
  | .ok r2 => r2
  | .error _ => r

/-- C3: the reservation state machine. Approve and reject succeed
exactly from pending, cancel exactly from pending or approved,
complete exactly from approved with the end time already passed;
every other attempt returns an error identifying the current status
(interpolated for approve, reject and complete, a status-specific
fixed message for cancel), reject stores the supplied reason, and a
failed transition leaves the document unchanged. -/
theorem reservation_state_machine (r : Reservation) (reason : String) (now : ℤ) :
    (exOk (approve_reservation r) = true ↔ r.status = .pending) ∧
    (exOk (reject_reservation reason r) = true ↔ r.status = .pending) ∧
    (exOk (cancel_reservation r) = true ↔ (r.status = .pending ∨ r.status = .approved)) ∧
    (exOk (complete_reservation now r) = true ↔ (r.status = .approved ∧ r.end_time ≤ now)) ∧
    (∀ r2, reject_reservation reason r = .ok r2 → r2.rejection_reason = some reason) ∧
    (r.status ≠ .pending →
      approve_reservation r =
        .error ("Não é possível aprovar uma reserva com status " ++ statusStr r.status)) ∧
    (r.status ≠ .pending →
      reject_reservation reason r =
        .error ("Não é possível rejeitar uma reserva com status " ++ statusStr r.status)) ∧
    (r.status ≠ .approved →
      complete_reservation now r =
        .error ("Não é possível marcar como concluída uma reserva com status " ++
          statusStr r.status)) ∧
    (r.status = .canceled → cancel_reservation r = .error "Esta reserva já foi cancelada") ∧
    (r.status = .rejected →
      cancel_reservation r = .error "Esta reserva já foi rejeitada pelo gerente") ∧
    (r.status = .completed →
      cancel_reservation r = .error "Não é possível cancelar uma reserva já concluída") ∧
    (exOk (approve_reservation r) = false → runTransition approve_reservation r = r) ∧
    (exOk (reject_reservation reason r) = false →
      runTransition (reject_reservation reason) r = r) ∧
    (exOk (cancel_reservation r) = false → runTransition cancel_reservation r = r) ∧
    (exOk (complete_reservation now r) = false →
      runTransition (complete_reservation now) r = r) := by
  obtain ⟨st, et, rr⟩ := r
  rcases lt_or_le now et with h | h
  · cases st <;>
      simp_all [approve_reservation, reject_reservation, cancel_reservation,
        complete_reservation, runTransition, exOk, statusStr, h, not_le.mpr h]
  · cases st <;>
      simp_all [approve_reservation, reject_reservation, cancel_reservation,
        complete_reservation, runTransition, exOk, statusStr, h, not_lt.mpr h]

/-- Witness for C3: a pending reservation is approvable, and
completing an approved reservation whose end time has not passed
fails. -/
theorem reservation_state_machine_witness :
    (exOk (approve_reservation
      { status := .pending, end_time := 100, rejection_reason := none }) = true) ∧
    (exOk (complete_reservation 50
      { status := .approved, end_time := 100, rejection_reason := none }) = true ↔
      ((ReservationStatus.approved = ReservationStatus.approved) ∧ (100 : ℤ) ≤ 50)) :=
  ⟨(reservation_state_machine
      { status := .pending, end_time := 100, rejection_reason := none } "x" 50).1.mpr rfl,
   (reservation_state_machine
      { status := .approved, end_time := 100, rejection_reason := none } "x" 50).2.2.2.1⟩

/-- The fields of a stored reservation document examined by the
conflict query of create_reservation. -/
structure ReservationDoc where
  space_id : String
  status : ReservationStatus
  start_time : ℤ
  end_time : ℤ
deriving DecidableEq, Repr

/-- The fields of a ReservationCreate request used by the conflict
query. -/
structure NewReservation where
  space_id : String
  start_time : ℤ
  end_time : ℤ
deriving DecidableEq, Repr

/-- Whether one stored reservation matches the Mongo conflict query of
create_reservation (reservations.py lines 74-94): same space_id,
status in the pending or approved set, and one of the three interval
branches. -/
def reservationConflictDoc (new : NewReservation) (ex : ReservationDoc) : Prop :=
  ex.space_id = new.space_id ∧
  (ex.status = .pending ∨ ex.status = .approved) ∧
  conflictBranches { start_time := ex.start_time, end_time := ex.end_time }
    { start_time := new.start_time, end_time := new.end_time }

instance (new : NewReservation) (ex : ReservationDoc) :
    Decidable (reservationConflictDoc new ex) := by
  unfold reservationConflictDoc; infer_instance

/-- The find_one step: creation is blocked iff some stored document
matches the conflict query. -/
def reservationHasConflict (new : NewReservation) (docs : List ReservationDoc) : Prop :=
  ∃ ex ∈ docs, reservationConflictDoc new ex

instance (new : NewReservation) (docs : List ReservationDoc) :
    Decidable (reservationHasConflict new docs) := by
  unfold reservationHasConflict; infer_instance

/-- C4: the conflict search of create_reservation is scoped to the
same space and to active statuses. A stored reservation that is
rejected, canceled or completed, or that lives on another space,
never matches the query even when it overlaps; an overlapping pending
or approved reservation on the same space always matches, and any
matching stored document blocks the creation. -/
theorem reservation_conflict_scope (new : NewReservation) (ex : ReservationDoc)
    (docs : List ReservationDoc)
    (_hnew : new.start_time < new.end_time) (_hex : ex.start_time < ex.end_time) :
    (((ex.status = .rejected ∨ ex.status = .canceled ∨ ex.status = .completed) ∨
        ex.space_id ≠ new.space_id) → ¬ reservationConflictDoc new ex) ∧
    ((ex.space_id = new.space_id ∧ (ex.status = .pending ∨ ex.status = .approved) ∧
        overlaps { start_time := ex.start_time, end_time := ex.end_time }
          { start_time := new.start_time, end_time := new.end_time }) →
      reservationConflictDoc new ex) ∧
    (ex ∈ docs → reservationConflictDoc new ex → reservationHasConflict new docs) := by
  refine ⟨?_, ?_, fun hmem hdoc => ⟨ex, hmem, hdoc⟩⟩
  · rintro (hst | hsp) ⟨hspace, hstat, _⟩
    · rcases hstat with h | h <;> rcases hst with h2 | h2 | h2 <;> simp_all
    · exact hsp hspace
  · rintro ⟨hspace, hstat, hov⟩
    refine ⟨hspace, hstat, ?_⟩
    obtain ⟨h1, h2⟩ := hov
    unfold conflictBranches
    simp only at h1 h2 ⊢
    omega

/-- Witness for C4: a pending overlapping reservation on the same
space matches the query and blocks, at concrete inputs. -/
theorem reservation_conflict_scope_witness :
    reservationConflictDoc
      { space_id := "s1", start_time := 0, end_time := 10 }
      { space_id := "s1", status := .pending, start_time := 5, end_time := 15 } ∧
    reservationHasConflict
      { space_id := "s1", start_time := 0, end_time := 10 }
      [{ space_id := "s1", status := .pending, start_time := 5, end_time := 15 }] := by
  have h := reservation_conflict_scope
    { space_id := "s1", start_time := 0, end_time := 10 }
    { space_id := "s1", status := .pending, start_time := 5, end_time := 15 }
    [{ space_id := "s1", status := .pending, start_time := 5, end_time := 15 }]
    (by decide) (by decide)
  have hdoc := h.2.1 ⟨rfl, Or.inl rfl, by constructor <;> decide⟩
  exact ⟨hdoc, h.2.2 (by simp) hdoc⟩

/-- Sport lookup of create_reservation (reservations.py line 125): the
first entry of available_sports whose sport_type matches the request. -/
def findAvailableSport (sports : List SportEntry) (t : String) : Option SportEntry :=
  sports.find? (fun s => s.sport_type == t)

/-- Duration in hours of the requested slot, reservations.py lines
134-135: total seconds divided by 3600, kept as an exact fraction. -/
def duration_hours (start_time end_time : ℤ) : ℚ :=
  ((end_time - start_time : ℤ) : ℚ) / 3600

/-- The sport-resolution and pricing fragment of create_reservation
(reservations.py lines 124-138): resolve the sport in
available_sports, then price_per_hour * duration_hours *
participants_count. -/
def reservationTotalPrice (sports : List SportEntry) (sport_type : String)
    (start_time end_time : ℤ) (participants_count : ℕ) : Except String ℚ :=
  match findAvailableSport sports sport_type with
  | none => .error ("O esporte " ++ sport_type ++ " não está disponível neste espaço")
  | some s => .ok (s.price_per_hour * duration_hours start_time end_time *
      (participants_count : ℚ))

/-- C5: every successfully created reservation is priced at
price_per_hour * duration_hours * participants_count with the rate
taken from the matching available_sports entry and the duration kept
as an exact fraction of hours; in particular a rate of 100, a
1.5-hour slot (5400 seconds) and 4 participants give exactly 600. -/
theorem reservation_total_price (sports : List SportEntry) (t : String) (s : SportEntry)
    (st et : ℤ) (c : ℕ) (h : findAvailableSport sports t = some s) :
    reservationTotalPrice sports t st et c =
      .ok (s.price_per_hour * (((et - st : ℤ) : ℚ) / 3600) * (c : ℚ)) ∧
    reservationTotalPrice [{ sport_type := "futebol", price_per_hour := 100 }]
      "futebol" 0 5400 4 = .ok 600 := by
  constructor
  · rw [reservationTotalPrice, h, duration_hours]
  · rw [reservationTotalPrice]
    simp only [findAvailableSport, List.find?, beq_self_eq_true, duration_hours]
    norm_num

/-- Witness for C5 at the concrete example of the spec. -/
theorem reservation_total_price_witness :
    reservationTotalPrice [{ sport_type := "futebol", price_per_hour := 100 }]
      "futebol" 0 5400 4 =
      .ok ((100 : ℚ) * (((5400 - 0 : ℤ) : ℚ) / 3600) * ((4 : ℕ) : ℚ)) :=
  (reservation_total_price [{ sport_type := "futebol", price_per_hour := 100 }]
    "futebol" { sport_type := "futebol", price_per_hour := 100 } 0 5400 4 (by decide)).1

/-- One entry of an event document positions array: id is the string
rendering of its stored _id, with the empty string when no _id is
present (events.py line 472 uses str of a defaulted get). -/
structure Position where
  id : String
  name : String
  quantity : ℕ
deriving DecidableEq, Repr

/-- The participant fields read and written by join_event. -/
structure EventParticipant where
  user_id : String
  position_id : Option String
  confirmed : Bool
deriving DecidableEq, Repr

/-- Latitude and longitude as optionally present document fields. -/
structure EventLocation where
  lat : Option ℚ
  lng : Option ℚ
deriving DecidableEq, Repr

/-- The fields of an event document consulted by the handlers in
events.py. -/
structure EventDoc where
  id : String
  organizer_id : String
  start_time : ℤ
  end_time : ℤ
  max_participants : ℕ
  participants : List EventParticipant
  positions : List Position
  is_private : Bool
  location : Option EventLocation
deriving DecidableEq, Repr

/-- Position resolution of join_event (events.py lines 472-474): first
match by the string form of the stored id, then fall back to match by
name. -/
def resolvePosition (positions : List Position) (pid : String) : Option Position :=
  match positions.find? (fun p => p.id == pid) with
  | some p => some p
  | none => positions.find? (fun p => p.name == pid)

/-- Number of current participants whose stored position_id equals the
supplied identifier (events.py line 483). -/
def positionCount (ps : List EventParticipant) (pid : String) : ℕ :=
  (ps.filter (fun p => p.position_id == some pid)).length

/-- Appending the new auto-confirmed participant (events.py lines
493-510). -/
def pushParticipant (e : EventDoc) (user_id : String) (pid : Option String) : EventDoc :=
  { e with participants := e.participants ++
      [{ user_id := user_id, position_id := pid, confirmed := true }] }

/-- join_event (events.py lines 432-510) after the existence lookup:
reject a started event, a duplicate participant, and a full event;
then, only when a position id is supplied, is truthy, and the
positions array is non-empty (the Python condition on line 471),
resolve the position and enforce its per-position quantity; finally
push the confirmed participant. -/
def join_event (now : ℤ) (user_id : String) (pid : Option String) (e : EventDoc) :
    Except String EventDoc :=
  if e.start_time < now then .error "Este evento já começou ou já passou"
  else if e.participants.any (fun p => p.user_id == user_id) then
    .error "Você já está participando deste evento"
  else if e.max_participants ≤ e.participants.length then
    .error "Este evento já atingiu o limite máximo de participantes"
  else
    match pid with
    | none => .ok (pushParticipant e user_id none)
    | some s =>
      if s ≠ "" ∧ ¬ e.positions.isEmpty then
        match resolvePosition e.positions s with
        | none => .error "Posição não encontrada"
        | some pos =>
          if pos.quantity ≤ positionCount e.participants s then
            .error ("Não há mais vagas disponíveis para a posição " ++ pos.name)
          else .ok (pushParticipant e user_id (some s))
      else .ok (pushParticipant e user_id (some s))

/-- A future event with two declared positions but an empty positions
check bypass: no positions at all. Used as the C6 counterexample. -/
def noPositionsEvent : EventDoc :=
  { id := "e1", organizer_id := "u1", start_time := 10, end_time := 20
    max_participants := 5, participants := [], positions := []
    is_private := false, location := none }

/-- C6 counterexample: joining with a position id that resolves to no
declared position succeeds when the event has an empty positions
array, because the Python condition on events.py line 471 skips the
whole position check; the claim that a supplied position_id must
always resolve is therefore false as stated. -/
theorem join_event_unresolved_position_accepted :
    resolvePosition noPositionsEvent.positions "goleiro" = none ∧
    exOk (join_event 0 "u2" (some "goleiro") noPositionsEvent) = true := by
  constructor <;> rfl

/-- C6 (amended): join capacity gates. A join always fails when the
participant list already has max_participants entries; when a
non-empty position id is supplied and the event declares a non-empty
positions array, the id must resolve (by id, falling back to name)
or the join fails, and the join fails when the resolved position
already has quantity holders even if general capacity remains; every
successful join appends exactly one participant with confirmed true.
When the event declares no positions, a supplied position id is
accepted without validation. -/
theorem join_event_capacity_gates (now : ℤ) (user_id s : String) (pid : Option String)
    (e : EventDoc)
    (hfull : e.max_participants ≤ e.participants.length) :
    (¬ exOk (join_event now user_id pid e) = true) ∧
    (∀ e2, s ≠ "" → ¬ e2.positions.isEmpty → resolvePosition e2.positions s = none →
      ¬ exOk (join_event now user_id (some s) e2) = true) ∧
    (∀ e2 pos, s ≠ "" → resolvePosition e2.positions s = some pos →
      pos.quantity ≤ positionCount e2.participants s →
      ¬ exOk (join_event now user_id (some s) e2) = true) ∧
    (∀ e2 e3 p2, join_event now user_id p2 e2 = .ok e3 →
      e3.participants = e2.participants ++
        [{ user_id := user_id, position_id := p2, confirmed := true }]) := by
  refine ⟨?_, ?_, ?_, ?_⟩
  · intro hok
    unfold join_event at hok
    rw [if_pos hfull] at hok
    split at hok
    · simp [exOk] at hok
    split at hok
    · simp [exOk] at hok
    · simp [exOk] at hok
  · intro e2 hs hne hnone hok
    simp only [join_event] at hok
    split at hok
    · simp [exOk] at hok
    split at hok
    · simp [exOk] at hok
    split at hok
    · simp [exOk] at hok
    rw [if_pos ⟨hs, hne⟩, hnone] at hok
    simp [exOk] at hok
  · intro e2 pos hs hsome hcount hok
    have hne : ¬ e2.positions.isEmpty = true := by
      intro hemp
      rw [List.isEmpty_iff.mp hemp] at hsome
      simp [resolvePosition] at hsome
    simp only [join_event] at hok
    split at hok
    · simp [exOk] at hok
    split at hok
    · simp [exOk] at hok
    split at hok
    · simp [exOk] at hok
    rw [if_pos ⟨hs, hne⟩, hsome] at hok
    simp [exOk, hcount] at hok
  · intro e2 e3 p2 hok
    unfold join_event at hok
    split at hok
    · simp at hok
    split at hok
    · simp at hok
    split at hok
    · simp at hok
    split at hok
    · injection hok with h
      subst h
      rfl
    · split at hok
      · split at hok
        · simp at hok
        · split at hok
          · simp at hok
          · injection hok with h
            subst h
            rfl
      · injection hok with h
        subst h
        rfl

/-- Witness for C6: the spec examples. An event with capacity 2 and
two participants rejects a third join, and a position with quantity 1
and one holder rejects a second join for that position even though
general capacity remains. -/
theorem join_event_capacity_gates_witness :
    (¬ exOk (join_event 0 "u3" none
      { id := "e2", organizer_id := "u1", start_time := 10, end_time := 20
        max_participants := 2
        participants := [{ user_id := "a", position_id := none, confirmed := true },
          { user_id := "b", position_id := none, confirmed := true }]
        positions := [], is_private := false, location := none }) = true) ∧
    (¬ exOk (join_event 0 "u3" (some "goleiro")
      { id := "e3", organizer_id := "u1", start_time := 10, end_time := 20
        max_participants := 10
        participants := [{ user_id := "a", position_id := some "goleiro", confirmed := true }]
        positions := [{ id := "", name := "goleiro", quantity := 1 }]
        is_private := false, location := none }) = true) := by
  have h1 := join_event_capacity_gates 0 "u3" "goleiro" none
    { id := "e2", organizer_id := "u1", start_time := 10, end_time := 20
      max_participants := 2
      participants := [{ user_id := "a", position_id := none, confirmed := true },
        { user_id := "b", position_id := none, confirmed := true }]
      positions := [], is_private := false, location := none }
    (by decide)
  exact ⟨h1.1, h1.2.2.1
    { id := "e3", organizer_id := "u1", start_time := 10, end_time := 20
      max_participants := 10
      participants := [{ user_id := "a", position_id := some "goleiro", confirmed := true }]
      positions := [{ id := "", name := "goleiro", quantity := 1 }]
      is_private := false, location := none }
    { id := "", name := "goleiro", quantity := 1 }
    (by decide) (by decide) (by decide)⟩

/-- Whether one stored event matches the update_event conflict query
(events.py lines 279-299): any document other than the event under
update, owned by the same organizer, satisfying one of the three
interval branches. -/
def updateEventConflictDoc (event_id organizer_id : String) (iv : TimeInterval)
    (d : EventDoc) : Prop :=
  d.id ≠ event_id ∧ d.organizer_id = organizer_id ∧
  conflictBranches { start_time := d.start_time, end_time := d.end_time } iv

instance (event_id organizer_id : String) (iv : TimeInterval) (d : EventDoc) :
    Decidable (updateEventConflictDoc event_id organizer_id iv d) := by
  unfold updateEventConflictDoc; infer_instance

/-- The find_one step of the update_event conflict search. -/
def updateEventHasConflict (event_id organizer_id : String) (iv : TimeInterval)
    (docs : List EventDoc) : Prop :=
  ∃ d ∈ docs, updateEventConflictDoc event_id organizer_id iv d

instance (event_id organizer_id : String) (iv : TimeInterval) (docs : List EventDoc) :
    Decidable (updateEventHasConflict event_id organizer_id iv docs) := by
  unfold updateEventHasConflict; infer_instance

/-- C7: the re-run conflict search of update_event excludes the event
under update by its own id. If every stored event of the organizer is
the event being updated, no interval can conflict, even one
overlapping the stored interval of that same event; a different event
of the same organizer whose stored interval overlaps the new one does
conflict. -/
theorem update_event_excludes_self (event_id organizer_id : String) (iv : TimeInterval)
    (docs : List EventDoc) (d : EventDoc)
    (_hiv : iv.start_time < iv.end_time) (_hd : d.start_time < d.end_time) :
    ((∀ d2 ∈ docs, d2.organizer_id = organizer_id → d2.id = event_id) →
      ¬ updateEventHasConflict event_id organizer_id iv docs) ∧
    (d ∈ docs → d.id ≠ event_id → d.organizer_id = organizer_id →
      overlaps { start_time := d.start_time, end_time := d.end_time } iv →
      updateEventHasConflict event_id organizer_id iv docs) := by
  constructor
  · rintro hall ⟨d2, hmem, hne, horg, _⟩
    exact hne (hall d2 hmem horg)
  · intro hmem hne horg hov
    refine ⟨d, hmem, hne, horg, ?_⟩
    obtain ⟨h1, h2⟩ := hov
    unfold conflictBranches
    simp only at h1 h2 ⊢
    omega

/-- Witness for C7: a single stored document that is the event under
update never conflicts, while a distinct overlapping event of the
same organizer does, at concrete inputs. -/
theorem update_event_excludes_self_witness :
    (¬ updateEventHasConflict "e1" "u1" { start_time := 0, end_time := 10 }
      [{ id := "e1", organizer_id := "u1", start_time := 0, end_time := 10
         max_participants := 4, participants := [], positions := []
         is_private := false, location := none }]) ∧
    updateEventHasConflict "e1" "u1" { start_time := 0, end_time := 10 }
      [{ id := "e9", organizer_id := "u1", start_time := 5, end_time := 15
         max_participants := 4, participants := [], positions := []
         is_private := false, location := none }] := by
  constructor
  · exact (update_event_excludes_self "e1" "u1" { start_time := 0, end_time := 10 }
      [{ id := "e1", organizer_id := "u1", start_time := 0, end_time := 10
         max_participants := 4, participants := [], positions := []
         is_private := false, location := none }]
      { id := "e1", organizer_id := "u1", start_time := 0, end_time := 10
        max_participants := 4, participants := [], positions := []
        is_private := false, location := none }
      (by decide) (by decide)).1 (by intro d2 hmem _; simp at hmem; simp [hmem])
  · exact (update_event_excludes_self "e1" "u1" { start_time := 0, end_time := 10 }
      [{ id := "e9", organizer_id := "u1", start_time := 5, end_time := 15
         max_participants := 4, participants := [], positions := []
         is_private := false, location := none }]
      { id := "e9", organizer_id := "u1", start_time := 5, end_time := 15
        max_participants := 4, participants := [], positions := []
        is_private := false, location := none }
      (by decide) (by decide)).2 (by simp) (by decide) rfl (by constructor <;> decide)

/-- The visibility rule shared by the event read paths: public, or
owned by the caller, or the caller is among the participants. -/
def eventVisible (user_id : String) (e : EventDoc) : Prop :=
  e.is_private = false ∨ e.organizer_id = user_id ∨
    ∃ p ∈ e.participants, p.user_id = user_id

instance (user_id : String) (e : EventDoc) : Decidable (eventVisible user_id e) := by
  unfold eventVisible; infer_instance

/-- get_event (events.py lines 122-156): a missing document is a 404,
an existing private document whose caller is neither organizer nor
participant is a 403 with the private-event message, anything else is
returned. -/
def get_event (user_id : String) (e? : Option EventDoc) : Except (ℕ × String) EventDoc :=
  match e? with
  | none => .error (404, "Evento não encontrado")
  | some e =>
    if e.is_private then
      if e.organizer_id == user_id || e.participants.any (fun p => p.user_id == user_id)
      then .ok e
      else .error (403, "Este é um evento privado")
    else .ok e

/-- The base Mongo filter of list_events (events.py lines 77-82): the
disjunction of public, organized-by-caller and caller-participates. -/
def listEventsBaseFilter (user_id : String) (e : EventDoc) : Bool :=
  !e.is_private || e.organizer_id == user_id ||
    e.participants.any (fun p => p.user_id == user_id)

/-- The list_events query with no optional filters supplied: every
stored document passing the base visibility filter. -/
def list_events (user_id : String) (docs : List EventDoc) : List EventDoc :=
  docs.filter (listEventsBaseFilter user_id)

/-- C8: private-event visibility. A direct get of an existing event
succeeds exactly when the event is public, organized by the caller or
joined by the caller; when that fails the result is the 403 forbidden
error (the document was found, so the 404 branch is not taken); and
list_events returns exactly the stored documents visible to the
caller. -/
theorem private_event_visibility (user_id : String) (e : EventDoc) (docs : List EventDoc) :
    (eventVisible user_id e → get_event user_id (some e) = .ok e) ∧
    (¬ eventVisible user_id e →
      get_event user_id (some e) = .error (403, "Este é um evento privado")) ∧
    (e ∈ list_events user_id docs ↔ (e ∈ docs ∧ eventVisible user_id e)) := by
  refine ⟨?_, ?_, ?_⟩
  · intro hv
    unfold get_event
    rcases hv with h | h | h
    · simp [h]
    · simp [h]
    · obtain ⟨p, hp, hpu⟩ := h
      have hany : e.participants.any (fun p => p.user_id == user_id) = true := by
        simp only [List.any_eq_true]
        exact ⟨p, hp, by simp [hpu]⟩
      simp [hany]
  · intro hv
    unfold get_event
    unfold eventVisible at hv
    push_neg at hv
    obtain ⟨h1, h2, h3⟩ := hv
    have hb1 : e.is_private = true := by
      cases h : e.is_private
      · exact absurd h h1
      · rfl
    have hb2 : (e.organizer_id == user_id) = false := by
      simp [h2]
    have hb3 : e.participants.any (fun p => p.user_id == user_id) = false := by
      simp only [List.any_eq_false]
      intro p hp
      simp [h3 p hp]
    simp [hb1, hb2, hb3]
  · unfold list_events listEventsBaseFilter eventVisible
    rw [List.mem_filter]
    constructor
    · rintro ⟨hmem, hf⟩
      refine ⟨hmem, ?_⟩
      simp only [Bool.or_eq_true, Bool.not_eq_true', beq_iff_eq, List.any_eq_true] at hf
      rcases hf with (h | h) | h
      · exact Or.inl h
      · exact Or.inr (Or.inl h)
      · obtain ⟨p, hp, hpu⟩ := h
        exact Or.inr (Or.inr ⟨p, hp, by simpa using hpu⟩)
    · rintro ⟨hmem, hv⟩
      refine ⟨hmem, ?_⟩
      simp only [Bool.or_eq_true, Bool.not_eq_true', beq_iff_eq, List.any_eq_true]
      rcases hv with h | h | h
      · exact Or.inl (Or.inl h)
      · exact Or.inl (Or.inr h)
      · obtain ⟨p, hp, hpu⟩ := h
        exact Or.inr ⟨p, hp, by simpa using hpu⟩

/-- A private event of organizer u1 with no participants, the concrete
input of the C8 witness. -/
def privateEventDoc : EventDoc :=
  { id := "e1", organizer_id := "u1", start_time := 0, end_time := 10
    max_participants := 4, participants := [], positions := []
    is_private := true, location := none }

/-- Witness for C8: the private event is forbidden to u2 with the 403
error, returned intact to u1, and hidden from the listing shown to
u2. -/
theorem private_event_visibility_witness :
    get_event "u2" (some privateEventDoc) = .error (403, "Este é um evento privado") ∧
    get_event "u1" (some privateEventDoc) = .ok privateEventDoc ∧
    privateEventDoc ∉ list_events "u2" [privateEventDoc] := by
  refine ⟨?_, ?_, ?_⟩
  · exact (private_event_visibility "u2" privateEventDoc []).2.1 (by decide)
  · exact (private_event_visibility "u1" privateEventDoc []).1 (by decide)
  · intro hmem
    have h := ((private_event_visibility "u2" privateEventDoc
      [privateEventDoc]).2.2.mp hmem).2
    revert h
    decide

/-- One entry of a space document photos array. -/
structure SpacePhoto where
  id : String
  url : String
  is_primary : Bool
deriving DecidableEq, Repr

/-- The array-filtered update of add_photo (spaces.py lines 262-267):
every photo whose is_primary flag is set gets it cleared. -/
def demotePrimary (photos : List SpacePhoto) : List SpacePhoto :=
  photos.map (fun p => if p.is_primary then { p with is_primary := false } else p)

/-- add_photo (spaces.py lines 255-276): when the new photo is
primary, first demote all existing primary photos, then push the new
photo onto the array; otherwise push directly. -/
def add_photo (photos : List SpacePhoto) (new : SpacePhoto) : List SpacePhoto :=
  (if new.is_primary then demotePrimary photos else photos) ++ [new]

/-- remove_photo (spaces.py lines 287-330): pull the photos entry
matching the supplied id. -/
def remove_photo (photos : List SpacePhoto) (photo_id : String) : List SpacePhoto :=
  photos.filter (fun p => p.id != photo_id)

/-- Number of photos flagged primary. -/
def primaryCount (photos : List SpacePhoto) : ℕ :=
  (photos.filter (fun p => p.is_primary)).length

/-- Demotion clears every primary flag. -/
theorem primaryCount_demotePrimary (photos : List SpacePhoto) :
    primaryCount (demotePrimary photos) = 0 := by
  induction photos with
  | nil => rfl
  | cons p ps ih =>
    unfold primaryCount demotePrimary at ih ⊢
    cases h : p.is_primary <;> simp [h, List.filter, ih]

/-- Counting primaries distributes over append. -/
theorem primaryCount_append (xs ys : List SpacePhoto) :
    primaryCount (xs ++ ys) = primaryCount xs + primaryCount ys := by
  unfold primaryCount
  rw [List.filter_append, List.length_append]

/-- C9: a photo list never acquires a second primary photo. Starting
from a list with at most one primary, add_photo preserves the bound:
a primary insert first demotes every existing primary (leaving the
new photo as the only one), a non-primary insert leaves the existing
photos untouched; and remove_photo can only shrink the primary
count. -/
theorem photo_primary_invariant (photos : List SpacePhoto) (new : SpacePhoto)
    (photo_id : String) (hinv : primaryCount photos ≤ 1) :
    primaryCount (add_photo photos new) ≤ 1 ∧
    primaryCount (remove_photo photos photo_id) ≤ 1 ∧
    (new.is_primary = true → primaryCount (demotePrimary photos) = 0) ∧
    (new.is_primary = false → add_photo photos new = photos ++ [new]) := by
  refine ⟨?_, ?_, fun _ => primaryCount_demotePrimary photos, ?_⟩
  · unfold add_photo
    cases h : new.is_primary
    · rw [if_neg (by simp), primaryCount_append]
      have : primaryCount [new] = 0 := by
        unfold primaryCount
        simp [List.filter, h]
      omega
    · rw [if_pos rfl, primaryCount_append, primaryCount_demotePrimary]
      have : primaryCount [new] ≤ 1 := by
        unfold primaryCount
        simp [List.filter]
        split <;> simp
      omega
  · have : primaryCount (remove_photo photos photo_id) ≤ primaryCount photos := by
      unfold primaryCount remove_photo
      rw [List.filter_comm]
      exact List.length_filter_le _ _
    omega
  · intro h
    unfold add_photo
    rw [h]
    simp

/-- Witness for C9 on a concrete two-photo list with one primary:
adding a new primary keeps a single primary, and so does removal. -/
theorem photo_primary_invariant_witness :
    primaryCount (add_photo
      [{ id := "p1", url := "a", is_primary := true },
       { id := "p2", url := "b", is_primary := false }]
      { id := "p3", url := "c", is_primary := true }) ≤ 1 ∧
    primaryCount (remove_photo
      [{ id := "p1", url := "a", is_primary := true },
       { id := "p2", url := "b", is_primary := false }] "p1") ≤ 1 :=
  ⟨(photo_primary_invariant
      [{ id := "p1", url := "a", is_primary := true },
       { id := "p2", url := "b", is_primary := false }]
      { id := "p3", url := "c", is_primary := true } "p1" (by decide)).1,
   (photo_primary_invariant
      [{ id := "p1", url := "a", is_primary := true },
       { id := "p2", url := "b", is_primary := false }]
      { id := "p3", url := "c", is_primary := true } "p1" (by decide)).2.1⟩

/-- Insertion step of the by-distance sort of get_nearby_events. -/
def insertByDistance (x : EventDoc × ℚ) : List (EventDoc × ℚ) → List (EventDoc × ℚ)
  | [] => [x]
  | y :: ys => if x.2 ≤ y.2 then x :: y :: ys else y :: insertByDistance x ys

/-- Ascending sort of the distance-annotated events (events.py line
675). -/
def sortByDistance : List (EventDoc × ℚ) → List (EventDoc × ℚ)
  | [] => []
  | x :: xs => insertByDistance x (sortByDistance xs)

/-- Insertion adds no new elements. -/
theorem mem_insertByDistance (x y : EventDoc × ℚ) (l : List (EventDoc × ℚ)) :
    y ∈ insertByDistance x l ↔ (y = x ∨ y ∈ l) := by
  induction l with
  | nil => simp [insertByDistance]
  | cons z zs ih =>
    unfold insertByDistance
    split
    · simp
    · simp [ih]
      tauto

/-- Sorting preserves the set of elements. -/
theorem mem_sortByDistance (y : EventDoc × ℚ) (l : List (EventDoc × ℚ)) :
    y ∈ sortByDistance l ↔ y ∈ l := by
  induction l with
  | nil => simp [sortByDistance]
  | cons z zs ih =>
    unfold sortByDistance
    rw [mem_insertByDistance]
    simp [ih]

/-- The response shape of the event listing endpoints. -/
structure EventPage where
  events : List EventDoc
  total : ℕ
  page : ℕ
  per_page : ℕ
deriving DecidableEq, Repr

/-- The Mongo filter of get_nearby_events (events.py lines 616-623):
future events passing the same visibility disjunction as
list_events. -/
def nearbyBaseFilter (now : ℤ) (user_id : String) (e : EventDoc) : Bool :=
  (decide (now ≤ e.end_time)) && listEventsBaseFilter user_id e

/-- Distance annotation of one document (events.py lines 629-672): a
document without a location, or without a lat or lng inside it, is
skipped with continue; otherwise the Haversine distance (abstracted
here as the dist argument, the claim being independent of its value)
is computed and the document is kept when it is within the radius. -/
def annotateDistance (dist : ℚ → ℚ → ℚ → ℚ → ℚ) (lat lng radius : ℚ) (e : EventDoc) :
    Option (EventDoc × ℚ) :=
  match e.location with
  | none => none
  | some loc =>
    match loc.lat, loc.lng with
    | some elat, some elng =>
      let d := dist elat elng lat lng
      if d ≤ radius then some (e, d) else none
    | some _, none => none
    | none, _ => none

/-- get_nearby_events (events.py lines 600-707): the whole body runs
under a try block whose except clause returns an empty page, so a
failing store read never surfaces; on success the visible future
events are annotated with distances (skipping malformed documents),
filtered by radius, sorted ascending by distance, counted, and
paginated. -/
def get_nearby_events (dist : ℚ → ℚ → ℚ → ℚ → ℚ) (now : ℤ) (user_id : String)
    (lat lng radius : ℚ) (page per_page : ℕ)
    (store : Except String (List EventDoc)) : EventPage :=
  match store with
  | .error _ => { events := [], total := 0, page := page, per_page := per_page }
  | .ok docs =>
    let withDistance := (docs.filter (nearbyBaseFilter now user_id)).filterMap
      (annotateDistance dist lat lng radius)
    let sorted := sortByDistance withDistance
    { events := ((sorted.drop ((page - 1) * per_page)).take per_page).map Prod.fst
      total := sorted.length
      page := page
      per_page := per_page }

/-- A document kept by the distance annotation carries itself in the
pair and has a location with both coordinates present. -/
theorem annotateDistance_shape (dist : ℚ → ℚ → ℚ → ℚ → ℚ) (lat lng radius : ℚ)
    (a : EventDoc) (pr : EventDoc × ℚ)
    (h : annotateDistance dist lat lng radius a = some pr) :
    pr.1 = a ∧ ∃ loc, a.location = some loc ∧ loc.lat ≠ none ∧ loc.lng ≠ none := by
  unfold annotateDistance at h
  split at h
  · exact absurd h (by simp)
  · rename_i loc hloc
    split at h
    · rename_i elat elng hlat hlng
      dsimp only at h
      split at h
      · injection h with h2
        subst h2
        exact ⟨rfl, loc, hloc, by simp [hlat], by simp [hlng]⟩
      · exact absurd h (by simp)
    · exact absurd h (by simp)
    · exact absurd h (by simp)

/-- C10: get_nearby_events is total and swallows failures. It returns
a page for every input by construction; a store failure produces the
same successful empty page as an empty store, so the caller cannot
tell an internal failure from no events in range; and a document
missing its location, or the lat or lng inside it, is silently
skipped and never appears in any returned page. -/
theorem nearby_events_error_swallowing (dist : ℚ → ℚ → ℚ → ℚ → ℚ) (now : ℤ)
    (user_id : String) (lat lng radius : ℚ) (page per_page : ℕ) (msg : String)
    (docs : List EventDoc) (e : EventDoc)
    (hbad : e.location = none ∨
      ∃ loc, e.location = some loc ∧ (loc.lat = none ∨ loc.lng = none)) :
    get_nearby_events dist now user_id lat lng radius page per_page (.error msg) =
      { events := [], total := 0, page := page, per_page := per_page } ∧
    get_nearby_events dist now user_id lat lng radius page per_page (.error msg) =
      get_nearby_events dist now user_id lat lng radius page per_page (.ok []) ∧
    e ∉ (get_nearby_events dist now user_id lat lng radius page per_page
      (.ok docs)).events := by
  refine ⟨rfl, ?_, ?_⟩
  · unfold get_nearby_events sortByDistance
    simp
  · intro hmem
    unfold get_nearby_events at hmem
    simp only [List.mem_map] at hmem
    obtain ⟨pair, hpair, hfst⟩ := hmem
    have hsorted : pair ∈ sortByDistance ((docs.filter
        (nearbyBaseFilter now user_id)).filterMap
        (annotateDistance dist lat lng radius)) :=
      List.mem_of_mem_drop (List.mem_of_mem_take hpair)
    rw [mem_sortByDistance] at hsorted
    rw [List.mem_filterMap] at hsorted
    obtain ⟨a, _, ha⟩ := hsorted
    obtain ⟨hfa, loc, hloc, hlat, hlng⟩ := annotateDistance_shape _ _ _ _ _ _ ha
    rw [hfst] at hfa
    have hae : e.location = some loc := by
      rw [hfa]
      exact hloc
    rcases hbad with h | ⟨loc2, h2, h3⟩
    · rw [h] at hae
      cases hae
    · rw [h2] at hae
      injection hae with hae2
      subst hae2
      rcases h3 with h3 | h3
      · exact hlat h3
      · exact hlng h3

/-- Witness for C10: a document with no location field is absent from
the returned page at concrete inputs. -/
theorem nearby_events_error_swallowing_witness :
    noPositionsEvent ∉ (get_nearby_events (fun _ _ _ _ => 0) 0 "u1" 0 0 10 1 10
      (.ok [noPositionsEvent])).events :=
  (nearby_events_error_swallowing (fun _ _ _ _ => 0) 0 "u1" 0 0 10 1 10 "msg"
    [noPositionsEvent] noPositionsEvent (Or.inl rfl)).2.2

end Whatsport
